import Mathlib

/-!
Verification development for the `remote_kernel_provider` package:
a shallow embedding, in Lean, of the kernel lifecycle coordinator
(`remote_kernel_provider/manager.py`) and the provider base
(`remote_kernel_provider/provider.py`), together with theorems checking the
natural-language specification against the embedded code.

Python dictionaries whose concrete entries matter only through lookup are
modelled as functions `String → Option String` (absent key = `none`);
the metadata dictionaries of a kernelspec, whose emptiness (Python
truthiness) and key-update order are observable, are modelled as
association lists.
-/

namespace RKP

/-! ## Environment maps (Python `dict` of `str → str`, lookup-extensional) -/

/-- An environment map: Python `dict` with string keys and values, viewed
through lookup.  `none` models an absent key. -/
def EnvMap : Type := String → Option String

/-- Python `d1.copy()` followed by `d1.update(d2)`: keys of `d2` win. -/
def dictUpdate (d1 d2 : EnvMap) : EnvMap :=
  fun k => match d2 k with
    | some v => some v
    | none => d1 k

/-- Python dict comprehension `{k: v for k, v in d.items() if p k}`. -/
def dictFilter (p : String → Bool) (d : EnvMap) : EnvMap :=
  fun k => if p k then d k else none

/-- The filter of `RemoteKernelManager._capture_user_overrides`
(manager.py lines 197-204): a key survives when it starts with `KERNEL_`
(Python `key.startswith('KERNEL_')`, stated over the key's characters),
or is in the application config's `env_process_whitelist`, or is in its
`env_whitelist`. -/
def overrideFilter (wl1 wl2 : List String) (k : String) : Bool :=
  List.isPrefixOf "KERNEL_".data k.data || wl1.contains k || wl2.contains k

/-- `RemoteKernelManager._capture_user_overrides(legacy_env, kernel_params_env)`
(manager.py lines 190-205): start from `{}`, update with the filtered legacy
map, then update with the filtered call-time map (so call-time wins). -/
def capture_user_overrides (wl1 wl2 : List String)
    (legacy_env kernel_params_env : EnvMap) : EnvMap :=
  dictUpdate (dictFilter (overrideFilter wl1 wl2) legacy_env)
             (dictFilter (overrideFilter wl1 wl2) kernel_params_env)

/-- The merged environment built in `RemoteKernelManager.__init__`
(manager.py lines 44-45): `self.env = self.kernel_spec.env.copy()` then
`self.env.update(self._capture_user_overrides(env, kernel_params_env))`. -/
def merged_env (wl1 wl2 : List String)
    (specEnv legacy_env kernel_params_env : EnvMap) : EnvMap :=
  dictUpdate specEnv (capture_user_overrides wl1 wl2 legacy_env kernel_params_env)

/-! ## Kernelspec metadata values (Python JSON-like dicts) -/

/-- A value in a kernelspec metadata dictionary: a string or a nested
dictionary (the only shapes the provider code inspects). -/
inductive PVal where
  | str : String → PVal
  | dict : List (String × PVal) → PVal

/-- A metadata dictionary, as an association list (first binding wins). -/
def PDict : Type := List (String × PVal)

/-- Python `d.get(key, None)` on a metadata dictionary. -/
def plookup : PDict → String → Option PVal
  | [], _ => none
  | (k, v) :: rest, key => if k = key then some v else plookup rest key

/-- Python `d.update({key: v})`: replace the binding for `key` in place, or
append it when absent. -/
def pset : PDict → String → PVal → PDict
  | [], key, v => [(key, v)]
  | (k, w) :: rest, key, v =>
      if k = key then (key, v) :: rest else (k, w) :: pset rest key v

/-! ## Descriptor resolution: `RemoteKernelProviderBase._get_proxy_info` -/

/-- `RemoteKernelProviderBase._get_proxy_info(kernelspec)` (provider.py
lines 129-145), applied to `kernelspec.metadata.get('process_proxy', None)`.
Returns the proxy-info dictionary the method would return (`none` models
Python `None`) together with the number of legacy warnings emitted.
Note the body runs only when `proxy_info` is truthy (a non-empty dict), and
its inner block only when the named class is a string that is a member of
`supported_process_classes`. -/
def get_proxy_info (supported : List String) (expected : String)
    (metadata_process_proxy : Option PDict) : Option PDict × Nat :=
  match metadata_process_proxy with
  | none => (none, 0)
  | some d =>
    if d.isEmpty then (some d, 0)
    else
      match plookup d "class_name" with
      | some (PVal.str cn) =>
          if supported.contains cn then
            let dw := if cn ≠ expected
                      then (pset d "class_name" (PVal.str expected), 1)
                      else (d, 0)
            let d2 := if (plookup dw.1 "config").isSome
                      then dw.1
                      else pset dw.1 "config" (PVal.dict [])
            (some d2, dw.2)
          else (some d, 0)
      | _ => (some d, 0)

/-! ## The launch entry point and the manager constructor -/

/-- The keyword arguments observable by `RemoteKernelManager.__init__`
together with the `proxy_info` keyword set by the provider.  A field is
`none` when the corresponding keyword is absent from `**kwargs`. -/
structure Kwargs where
  kernelspec_present : Bool
  proxy_info : Option PDict
  lifecycle_info : Option PDict
  cwd : Option String
  kernel_params_present : Bool
  app_config_present : Bool
  env : Option Unit

/-- The keyword dictionary built by `RemoteKernelProviderBase.launch`
(provider.py lines 108-113): exactly the keys `kernelspec`, `proxy_info`,
`cwd`, `kernel_params`, `app_config` are set; in particular no
`lifecycle_info` and no `env` keyword is passed. -/
def provider_launch_kwargs (pi : PDict) (cwd : Option String) : Kwargs :=
  { kernelspec_present := true
    proxy_info := some pi
    lifecycle_info := none
    cwd := cwd
    kernel_params_present := true
    app_config_present := true
    env := none }

/-- The slice of manager state set up by `RemoteKernelManager.__init__`
that the launch path reads: `self.lifecycle_info = kwargs.get('lifecycle_info')`
(manager.py line 40). -/
structure MgrInit where
  lifecycle_info : Option PDict

/-- `RemoteKernelManager.__init__` (manager.py lines 30-49), restricted to
the fields the launch path reads. -/
def manager_init (kw : Kwargs) : MgrInit :=
  { lifecycle_info := kw.lifecycle_info }

/-- Outcome of `RemoteKernelManager.start_kernel` (manager.py lines 76-99).
The first statement is `self.lifecycle_info.get('class_name')`; when
`lifecycle_info` is `None` this raises `AttributeError` before the
lifecycle manager is instantiated and before `launch_process` is called. -/
inductive StartOutcome where
  | attrErrorNoneLifecycleInfo
  | launched (class_name : Option PVal)

/-- `RemoteKernelManager.start_kernel`, up to the instantiation of the
lifecycle manager class. -/
def start_kernel (m : MgrInit) : StartOutcome :=
  match m.lifecycle_info with
  | none => StartOutcome.attrErrorNoneLifecycleInfo
  | some li => StartOutcome.launched (plookup li "class_name")

/-- Outcome of `RemoteKernelProviderBase.launch` (provider.py lines 90-114):
a `RuntimeError` when `_get_proxy_info` returned `None`, an
`AttributeError` out of `start_kernel` when the manager's `lifecycle_info`
is `None`, or a started kernel. -/
inductive LaunchOutcome where
  | errNoProxyInfo
  | errNoneLifecycleInfo
  | started (class_name : Option PVal)

/-- `RemoteKernelProviderBase.launch` composed with
`RemoteKernelManager.launch` / `start_kernel`: resolve the descriptor,
abort when it is `None`, otherwise construct the manager from the built
keyword dictionary and start it.  Also returns the warning count of
descriptor resolution. -/
def provider_launch (supported : List String) (expected : String)
    (metadata_process_proxy : Option PDict) (cwd : Option String) :
    LaunchOutcome × Nat :=
  match get_proxy_info supported expected metadata_process_proxy with
  | (none, w) => (LaunchOutcome.errNoProxyInfo, w)
  | (some pi, w) =>
      match start_kernel (manager_init (provider_launch_kwargs pi cwd)) with
      | StartOutcome.attrErrorNoneLifecycleInfo =>
          (LaunchOutcome.errNoneLifecycleInfo, w)
      | StartOutcome.launched cn => (LaunchOutcome.started cn, w)

/-! ## Coordinator state machine (manager.py) -/

/-- The kind of the active lifecycle manager: `RemoteKernelLifecycleManager`
or `LocalKernelLifecycleManager` (the `isinstance` checks in manager.py only
observe this distinction). -/
inductive LMKind where
  | remote
  | local
  deriving DecidableEq

/-- The coordinator fields the lifecycle operations read and write
(`RemoteKernelManager.__init__`, manager.py lines 30-49): whether
`self.kernel` holds a handle, the attached lifecycle manager (and its
kind), the cached interrupt-signal value, the `restarting` flag, and
whether an activity stream is attached. -/
structure MgrState where
  kernel : Bool
  lifecycle_manager : Option LMKind
  sigint_value : Option Int
  restarting : Bool
  activity_stream : Bool
  deriving DecidableEq

/-- Observable side effects of the lifecycle operations: a signal delivered
to the kernel handle, log messages, listener shutdown, delegated cleanup,
the hard kill, and the restart path's collaborator calls. -/
inductive Effect where
  | sent (signum : Int)
  | warnedBadAltSigint
  | debuggedAltSigint
  | shutdownListener
  | lmCleanup
  | killedKernel
  | warnedNoClients
  | shutdownKernel (now : Bool)
  | superRestart (now : Bool)
  | closedActivityStream
  | startedWatching
  | refreshedSession
  deriving DecidableEq

/-- Errors the lifecycle operations can raise: the explicit
`RuntimeError("Cannot signal kernel. No kernel is running!")` of
`signal`, and the `AttributeError` raised by calling a method on `None`. -/
inductive MgrError where
  | noKernelRunning
  | noneTypeAttr
  deriving DecidableEq

/-- Result of one lifecycle operation: the state after it, the effects it
performed (in order) before returning or raising, and the raised error,
if any. -/
structure StepOut where
  st : MgrState
  effects : List Effect
  err : Option MgrError
  deriving DecidableEq

/-- The POSIX value of `signal.SIGINT`. -/
def SIGINT : Int := 2

/-- `RemoteKernelManager.signal(signum)` (manager.py lines 117-147).
`specEnv` is `self.kernel_spec.env`; `resolve` models
`getattr(signal, name)` followed by taking the numeric value, with `none`
for the `AttributeError` case.  The alternate-signal lookup runs only on a
`SIGINT` request when no value is cached yet, and only when the
`EG_ALTERNATE_SIGINT` entry is truthy (present and non-empty). -/
def signal (specEnv : EnvMap) (resolve : String → Option Int)
    (s : MgrState) (signum : Int) : StepOut :=
  if s.kernel then
    if signum = SIGINT then
      match s.sigint_value with
      | some v => { st := s, effects := [Effect.sent v], err := none }
      | none =>
          match specEnv "EG_ALTERNATE_SIGINT" with
          | some alt =>
              if alt ≠ "" then
                match resolve alt with
                | some v =>
                    { st := { s with sigint_value := some v }
                      effects := [Effect.debuggedAltSigint, Effect.sent v]
                      err := none }
                | none =>
                    { st := { s with sigint_value := some signum }
                      effects := [Effect.warnedBadAltSigint, Effect.sent signum]
                      err := none }
              else
                { st := { s with sigint_value := some signum }
                  effects := [Effect.sent signum], err := none }
          | none =>
              { st := { s with sigint_value := some signum }
                effects := [Effect.sent signum], err := none }
    else
      { st := s, effects := [Effect.sent signum], err := none }
  else
    { st := s, effects := [], err := some MgrError.noKernelRunning }

/-- `RemoteKernelManager.interrupt()` (manager.py lines 149-157):
`self.signal(signal.SIGINT)`. -/
def interrupt (specEnv : EnvMap) (resolve : String → Option Int)
    (s : MgrState) : StepOut :=
  signal specEnv resolve s SIGINT

/-- `RemoteKernelManager.kill()` (manager.py lines 159-174): stop the
listener when a remote lifecycle manager is attached, then
`self.kernel.kill()` — which raises `AttributeError` when `self.kernel`
is `None`. -/
def kill (s : MgrState) : StepOut :=
  let pre := if s.lifecycle_manager = some LMKind.remote
             then [Effect.shutdownListener] else []
  if s.kernel then
    { st := s, effects := pre ++ [Effect.killedKernel], err := none }
  else
    { st := s, effects := pre, err := some MgrError.noneTypeAttr }

/-- `RemoteKernelManager.cleanup()` (manager.py lines 176-188): when a
lifecycle manager is attached, stop its listener if it is remote, delegate
to its `cleanup()`, and set `self.lifecycle_manager = None`; otherwise do
nothing. -/
def cleanup (s : MgrState) : StepOut :=
  match s.lifecycle_manager with
  | none => { st := s, effects := [], err := none }
  | some k =>
      { st := { s with lifecycle_manager := none }
        effects := (if k = LMKind.remote then [Effect.shutdownListener] else [])
                   ++ [Effect.lmCleanup]
        err := none }

/-- `RemoteKernelManager.restart_kernel(now)` (manager.py lines 252-294).
`conns` is `self.parent._kernel_connections.get(self.kernel_id, 0)`.
Sets `restarting`, applies the remote auto-restart gate (warn and shut the
kernel down, returning early, when the lifecycle manager is remote,
`now` is true and there are no connections), and otherwise performs the
supervised restart, re-establishes activity watching for remote kernels,
refreshes the persisted session, and clears `restarting`. -/
def restart_kernel (conns : Nat) (now : Bool) (s : MgrState) : StepOut :=
  let s1 := { s with restarting := true }
  if s1.lifecycle_manager = some LMKind.remote ∧ now = true ∧ conns = 0 then
    { st := s1
      effects := [Effect.warnedNoClients, Effect.shutdownKernel now]
      err := none }
  else
    let acts := [Effect.superRestart now]
                ++ (if s1.lifecycle_manager = some LMKind.remote then
                      (if s1.activity_stream then [Effect.closedActivityStream] else [])
                      ++ [Effect.startedWatching]
                    else [])
                ++ [Effect.refreshedSession]
    let s2 := if s1.lifecycle_manager = some LMKind.remote ∧ s1.activity_stream then
                { s1 with activity_stream := false }
              else s1
    { st := { s2 with restarting := false }, effects := acts, err := none }

/-! ## Command templater: `RemoteKernelManager.format_kernel_cmd` -/

/-- A character matched by the identifier group of the pattern
`\x7b([A-Za-z0-9_]+)\x7d` used in `format_kernel_cmd` (manager.py
line 233). -/
def isIdentChar (c : Char) : Bool :=
  (('A' ≤ c && c ≤ 'Z') || ('a' ≤ c && c ≤ 'z') || ('0' ≤ c && c ≤ '9')
    || c = '_')

/-- The replacement for one matched placeholder: `from_ns` (manager.py
lines 235-237) returns the namespace value when the identifier is bound,
and the whole match verbatim otherwise. -/
def replPlaceholder (ns : EnvMap) (ident : List Char) : List Char :=
  match ns (String.mk ident) with
  | some v => v.data
  | none => '{' :: ident ++ ['}']

/-- One left-to-right pass of `pat.sub(from_ns, arg)` over the characters
of a token.  The second argument is `none` outside a candidate match and
`some acc` after an opening brace, with `acc` the identifier characters
read so far, in reverse.  A maximal non-empty identifier run closed by a
brace is a match (the regex admits no other match); any failed candidate
is emitted verbatim and scanning resumes, which agrees with the regex
restarting at the next position because an identifier character can never
begin a match. -/
def substAux (ns : EnvMap) : List Char → Option (List Char) → List Char
  | [], none => []
  | [], some acc => '{' :: acc.reverse
  | c :: cs, none =>
      if c = '{' then substAux ns cs (some [])
      else c :: substAux ns cs none
  | c :: cs, some acc =>
      if isIdentChar c then substAux ns cs (some (c :: acc))
      else if c = '}' ∧ acc ≠ [] then
        replPlaceholder ns acc.reverse ++ substAux ns cs none
      else if c = '{' then
        '{' :: acc.reverse ++ substAux ns cs (some [])
      else
        '{' :: acc.reverse ++ c :: substAux ns cs none

/-- `pat.sub(from_ns, arg)` on one token. -/
def substToken (ns : EnvMap) (arg : String) : String :=
  String.mk (substAux ns arg.data none)

/-- `RemoteKernelManager.format_kernel_cmd()` (manager.py lines 207-239):
concatenate the kernelspec argv with the call-time extra arguments
(producing a fresh list), replace a leading generic interpreter alias with
the coordinator's own interpreter path, and substitute every placeholder
in every token against the namespace `ns`. -/
def format_kernel_cmd (pyAliases : List String) (sysExecutable : String)
    (ns : EnvMap) (argv extra_arguments : List String) : List String :=
  let cmd := argv ++ extra_arguments
  let cmd := match cmd with
    | [] => []
    | c0 :: rest => (if pyAliases.contains c0 then sysExecutable else c0) :: rest
  cmd.map (substToken ns)

/-! ## Helper lemmas on metadata dictionaries -/

theorem plookup_pset_self (d : PDict) (k : String) (v : PVal) :
    plookup (pset d k v) k = some v := by
  induction d with
  | nil => simp [pset, plookup]
  | cons hd tl ih =>
      obtain ⟨k', v'⟩ := hd
      by_cases h : k' = k
      · simp [pset, h, plookup]
      · simp [pset, h, plookup, ih]

theorem plookup_pset_ne (d : PDict) (k k' : String) (v : PVal) (h : k' ≠ k) :
    plookup (pset d k v) k' = plookup d k' := by
  have hkk' : ¬ k = k' := fun he => h he.symm
  induction d with
  | nil => simp [pset, plookup, hkk']
  | cons hd tl ih =>
      obtain ⟨k0, v0⟩ := hd
      by_cases h0 : k0 = k
      · subst h0
        simp [pset, plookup, hkk']
      · simp [pset, plookup, h0, ih]

theorem plookup_nonnil {d : PDict} {k : String} {v : PVal}
    (h : plookup d k = some v) : d.isEmpty = false := by
  cases d with
  | nil => simp [plookup] at h
  | cons hd tl => rfl

/-! ## Claim theorems: descriptor resolution and the launch path -/

/-- C3: the claim says that a kernelspec whose metadata has no
backend-selection stanza resolves to the default descriptor and the launch
proceeds.  The code instead returns `None` from `_get_proxy_info` and
`launch` raises a `RuntimeError`: this theorem evaluates the embedded code
at that input, exhibiting the divergence (the repository's own tests
launch kernelspecs without any `process_proxy` stanza and expect
success). -/
theorem no_stanza_resolution_aborts_launch
    (supported : List String) (expected : String) (cwd : Option String) :
    get_proxy_info supported expected none = (none, 0)
    ∧ provider_launch supported expected none cwd =
        (LaunchOutcome.errNoProxyInfo, 0) := by
  exact ⟨rfl, rfl⟩

/-- C4 counterexample: a stanza naming a class that is not among the
provider's supported classes is returned unchanged — the class name is not
rewritten to the canonical default, no `config` sub-map is added, and no
warning is emitted — refuting the claim at input
`supported = ["ClassA"]`, `expected = "ClassA"`,
stanza `{class_name: "ClassB"}`. -/
theorem unsupported_class_passes_through :
    get_proxy_info ["ClassA"] "ClassA"
        (some [("class_name", PVal.str "ClassB")]) =
      (some [("class_name", PVal.str "ClassB")], 0)
    ∧ ("ClassB" : String) ∉ (["ClassA"] : List String)
    ∧ ("ClassB" : String) ≠ "ClassA"
    ∧ plookup [("class_name", PVal.str "ClassB")] "config" = none := by
  refine ⟨rfl, by decide, by decide, rfl⟩

/-- C4 amended: the legacy rewrite applies when the stanza's named class IS
among the supported classes: then the resolved descriptor names the
provider's canonical expected class, a `config` sub-map is present, and
exactly one warning is emitted when the named class differed from the
expected one (zero otherwise).  A stanza naming a class outside the
supported list is returned unchanged with no warning. -/
theorem supported_class_stanza_normalization
    (supported : List String) (expected : String) (d : PDict) (cn : String) :
    (cn ∈ supported → plookup d "class_name" = some (PVal.str cn) →
      ∃ d2, get_proxy_info supported expected (some d) =
              (some d2, if cn = expected then 0 else 1)
        ∧ plookup d2 "class_name" = some (PVal.str expected)
        ∧ (plookup d2 "config").isSome = true)
    ∧ (cn ∉ supported → plookup d "class_name" = some (PVal.str cn) →
        get_proxy_info supported expected (some d) = (some d, 0)) := by
  constructor
  · intro hmem hcn
    have hne : d.isEmpty = false := plookup_nonnil hcn
    by_cases hexp : cn = expected
    · subst hexp
      by_cases hcfg : (plookup d "config").isSome
      · refine ⟨d, ?_, ?_, hcfg⟩
        · simp [get_proxy_info, hne, hcn, hmem, hcfg]
        · exact hcn
      · refine ⟨pset d "config" (PVal.dict []), ?_, ?_, ?_⟩
        · simp [get_proxy_info, hne, hcn, hmem, hcfg]
        · rw [plookup_pset_ne _ _ _ _ (by decide)]
          exact hcn
        · rw [plookup_pset_self]
          rfl
    · set d1 := pset d "class_name" (PVal.str expected) with hd1
      have hcfg_eq : plookup d1 "config" = plookup d "config" :=
        plookup_pset_ne _ _ _ _ (by decide)
      by_cases hcfg : (plookup d "config").isSome
      · refine ⟨d1, ?_, ?_, ?_⟩
        · simp [get_proxy_info, hne, hcn, hmem, hexp, hd1, hcfg_eq, hcfg]
        · rw [hd1, plookup_pset_self]
        · rw [hcfg_eq]
          exact hcfg
      · refine ⟨pset d1 "config" (PVal.dict []), ?_, ?_, ?_⟩
        · simp [get_proxy_info, hne, hcn, hmem, hexp, hd1, hcfg_eq, hcfg]
        · rw [plookup_pset_ne _ _ _ _ (by decide), hd1, plookup_pset_self]
        · rw [plookup_pset_self]
          rfl
  · intro hmem hcn
    have hne : d.isEmpty = false := plookup_nonnil hcn
    simp [get_proxy_info, hne, hcn, hmem]

/-- Witness for the amended C4 theorem: a legacy stanza naming the
supported class `"ClassLegacy"` under expected class `"ClassA"` is
rewritten with one warning, and an unsupported `"ClassX"` stanza passes
through with none. -/
theorem supported_class_stanza_normalization_witness :
    (∃ d2, get_proxy_info ["ClassA", "ClassLegacy"] "ClassA"
             (some [("class_name", PVal.str "ClassLegacy")]) = (some d2, 1)
      ∧ plookup d2 "class_name" = some (PVal.str "ClassA")
      ∧ (plookup d2 "config").isSome = true)
    ∧ get_proxy_info ["ClassA", "ClassLegacy"] "ClassA"
        (some [("class_name", PVal.str "ClassX")]) =
      (some [("class_name", PVal.str "ClassX")], 0) := by
  constructor
  · have h := (supported_class_stanza_normalization
      ["ClassA", "ClassLegacy"] "ClassA"
      [("class_name", PVal.str "ClassLegacy")] "ClassLegacy").1
      (by decide) rfl
    simpa using h
  · exact (supported_class_stanza_normalization
      ["ClassA", "ClassLegacy"] "ClassA"
      [("class_name", PVal.str "ClassX")] "ClassX").2 (by decide) rfl

/-- C10: the provider's launch entry point passes the resolved descriptor
under the keyword `proxy_info`, while the manager's constructor reads only
`lifecycle_info`; hence for every launch that gets past descriptor
resolution, the manager's `lifecycle_info` is `None`, `start_kernel`
raises before instantiating any backend, and the launch never reaches the
started state. -/
theorem launch_keyword_mismatch
    (supported : List String) (expected : String)
    (md : Option PDict) (cwd : Option String) (pi : PDict) (w : Nat)
    (h : get_proxy_info supported expected md = (some pi, w)) :
    (manager_init (provider_launch_kwargs pi cwd)).lifecycle_info = none
    ∧ start_kernel (manager_init (provider_launch_kwargs pi cwd)) =
        StartOutcome.attrErrorNoneLifecycleInfo
    ∧ provider_launch supported expected md cwd =
        (LaunchOutcome.errNoneLifecycleInfo, w)
    ∧ ∀ cn, (provider_launch supported expected md cwd).1 ≠
        LaunchOutcome.started cn := by
  refine ⟨rfl, rfl, ?_, ?_⟩
  · simp [provider_launch, h, start_kernel, manager_init, provider_launch_kwargs]
  · intro cn
    simp [provider_launch, h, start_kernel, manager_init, provider_launch_kwargs]

/-- Witness for the C10 theorem at a concrete well-formed kernelspec whose
stanza names the expected class. -/
theorem launch_keyword_mismatch_witness :
    (provider_launch ["ClassA"] "ClassA"
        (some [("class_name", PVal.str "ClassA")]) none) =
      (LaunchOutcome.errNoneLifecycleInfo, 0)
    ∧ (manager_init (provider_launch_kwargs
        [("class_name", PVal.str "ClassA"), ("config", PVal.dict [])]
        none)).lifecycle_info = none := by
  have h := launch_keyword_mismatch ["ClassA"] "ClassA"
    (some [("class_name", PVal.str "ClassA")]) none
    [("class_name", PVal.str "ClassA"), ("config", PVal.dict [])] 0 rfl
  exact ⟨h.2.2.1, h.1⟩

/-! ## Claim theorems: the restart gate and the restarting flag -/

/-- C1: when the active lifecycle manager is remote, the restart is
automatic (`now = true`) and the connection-count collaborator reports
zero connections, `restart_kernel` warns, shuts the kernel down and never
reaches the supervised restart; in every other combination the ordinary
restart path (`super().restart_kernel`) is taken. -/
theorem restart_gate_policy (s : MgrState) (conns : Nat) (now : Bool) :
    (s.lifecycle_manager = some LMKind.remote → now = true → conns = 0 →
      restart_kernel conns now s =
        { st := { s with restarting := true }
          effects := [Effect.warnedNoClients, Effect.shutdownKernel now]
          err := none }
      ∧ ∀ b, Effect.superRestart b ∉ (restart_kernel conns now s).effects)
    ∧ (¬(s.lifecycle_manager = some LMKind.remote ∧ now = true ∧ conns = 0) →
        Effect.superRestart now ∈ (restart_kernel conns now s).effects) := by
  constructor
  · intro hrem hnow hconns
    subst hnow
    constructor
    · simp [restart_kernel, hrem, hconns]
    · intro b
      simp [restart_kernel, hrem, hconns]
  · intro hgate
    simp only [restart_kernel]
    rw [if_neg (by simpa using hgate)]
    simp

/-- Witness for the restart-gate theorem: denial at a remote kernel with
zero connections, and the ordinary path at a nonzero count and at a local
backend. -/
theorem restart_gate_policy_witness :
    restart_kernel 0 true
        { kernel := true, lifecycle_manager := some LMKind.remote,
          sigint_value := none, restarting := false, activity_stream := false } =
      { st := { kernel := true, lifecycle_manager := some LMKind.remote,
                sigint_value := none, restarting := true, activity_stream := false }
        effects := [Effect.warnedNoClients, Effect.shutdownKernel true]
        err := none }
    ∧ Effect.superRestart true ∈
        (restart_kernel 5 true
          { kernel := true, lifecycle_manager := some LMKind.remote,
            sigint_value := none, restarting := false, activity_stream := false }).effects
    ∧ Effect.superRestart false ∈
        (restart_kernel 0 false
          { kernel := true, lifecycle_manager := some LMKind.local,
            sigint_value := none, restarting := false, activity_stream := false }).effects := by
  refine ⟨((restart_gate_policy _ 0 true).1 rfl rfl rfl).1, ?_, ?_⟩
  · exact (restart_gate_policy _ 5 true).2 (by decide)
  · exact (restart_gate_policy _ 0 false).2 (by decide)

/-- C5 counterexample: on the denial path the method returns before the
final `self.restarting = False`, so a coordinator that entered
`restart_kernel` with `restarting = false` finishes the denied restart
with `restarting` still `true`, refuting the claim that the flag is
cleared on completion of either path. -/
theorem restart_denial_leaves_restarting_set :
    (restart_kernel 0 true
      { kernel := true, lifecycle_manager := some LMKind.remote,
        sigint_value := none, restarting := false,
        activity_stream := false }).st.restarting = true := by
  decide

/-- C5 amended: `restarting` is cleared on completion of the ordinary
restart path; on the denial path (remote lifecycle manager, `now = true`,
zero connections) the early return leaves `restarting` set. -/
theorem restarting_flag_after_restart (s : MgrState) (conns : Nat) (now : Bool) :
    ((s.lifecycle_manager = some LMKind.remote ∧ now = true ∧ conns = 0) →
      (restart_kernel conns now s).st.restarting = true)
    ∧ (¬(s.lifecycle_manager = some LMKind.remote ∧ now = true ∧ conns = 0) →
      (restart_kernel conns now s).st.restarting = false) := by
  constructor
  · intro hgate
    obtain ⟨hrem, hnow, hconns⟩ := hgate
    subst hnow
    simp [restart_kernel, hrem, hconns]
  · intro hgate
    simp only [restart_kernel]
    rw [if_neg (by simpa using hgate)]

/-- Witness for the restarting-flag theorem at a denied and at an ordinary
restart. -/
theorem restarting_flag_after_restart_witness :
    (restart_kernel 0 true
      { kernel := true, lifecycle_manager := some LMKind.remote,
        sigint_value := none, restarting := false,
        activity_stream := false }).st.restarting = true
    ∧ (restart_kernel 0 false
      { kernel := true, lifecycle_manager := some LMKind.local,
        sigint_value := none, restarting := false,
        activity_stream := false }).st.restarting = false := by
  refine ⟨(restarting_flag_after_restart _ 0 true).1 (by decide), ?_⟩
  exact (restarting_flag_after_restart _ 0 false).2 (by decide)

/-! ## Claim theorems: cleanup idempotence -/

/-- C9: the first `cleanup` stops the listener when the lifecycle manager
is remote, delegates to its `cleanup`, and detaches it; a coordinator
whose lifecycle-manager reference is already empty — in particular, after
any `cleanup` — performs no operation and raises nothing. -/
theorem cleanup_idempotent (s : MgrState) (k : LMKind) :
    (s.lifecycle_manager = some k →
      cleanup s =
        { st := { s with lifecycle_manager := none }
          effects := (if k = LMKind.remote then [Effect.shutdownListener] else [])
                     ++ [Effect.lmCleanup]
          err := none })
    ∧ (cleanup s).st.lifecycle_manager = none
    ∧ cleanup ((cleanup s).st) =
        { st := (cleanup s).st, effects := [], err := none } := by
  refine ⟨?_, ?_, ?_⟩
  · intro h
    simp [cleanup, h]
  · cases hs : s.lifecycle_manager <;> simp [cleanup, hs]
  · cases hs : s.lifecycle_manager <;> simp [cleanup, hs]

/-- Witness for the cleanup theorem at a coordinator with a remote
lifecycle manager attached. -/
theorem cleanup_idempotent_witness :
    cleanup
        { kernel := true, lifecycle_manager := some LMKind.remote,
          sigint_value := none, restarting := false, activity_stream := false } =
      { st := { kernel := true, lifecycle_manager := none,
                sigint_value := none, restarting := false, activity_stream := false }
        effects := [Effect.shutdownListener, Effect.lmCleanup]
        err := none }
    ∧ cleanup ((cleanup
        { kernel := true, lifecycle_manager := some LMKind.remote,
          sigint_value := none, restarting := false,
          activity_stream := false }).st) =
      { st := (cleanup
          { kernel := true, lifecycle_manager := some LMKind.remote,
            sigint_value := none, restarting := false,
            activity_stream := false }).st
        effects := [], err := none } := by
  constructor
  · have h := (cleanup_idempotent
      { kernel := true, lifecycle_manager := some LMKind.remote,
        sigint_value := none, restarting := false, activity_stream := false }
      LMKind.remote).1 rfl
    simpa using h
  · exact (cleanup_idempotent
      { kernel := true, lifecycle_manager := some LMKind.remote,
        sigint_value := none, restarting := false, activity_stream := false }
      LMKind.remote).2.2

/-! ## Claim theorems: operations with no active kernel handle -/

/-- C6 counterexample: with no kernel handle, `kill()` evaluates
`self.kernel.kill()` on `None` and fails with an attribute error, not
with the "no kernel running" runtime error the claim asserts for all
three operations. -/
theorem kill_without_kernel_is_attr_error :
    (kill { kernel := false, lifecycle_manager := none, sigint_value := none,
            restarting := false, activity_stream := false }).err =
      some MgrError.noneTypeAttr
    ∧ MgrError.noneTypeAttr ≠ MgrError.noKernelRunning := by
  exact ⟨rfl, by decide⟩

/-- C6 amended: with no active kernel handle, `signal` and `interrupt`
raise the "no kernel running" runtime error and deliver no signal, while
`kill` fails with a none-dereference attribute error (after stopping the
remote listener when one is still attached) and also delivers no
signal. -/
theorem absent_kernel_operation_errors (specEnv : EnvMap)
    (resolve : String → Option Int) (s : MgrState) (signum : Int)
    (h : s.kernel = false) :
    signal specEnv resolve s signum =
      { st := s, effects := [], err := some MgrError.noKernelRunning }
    ∧ interrupt specEnv resolve s =
      { st := s, effects := [], err := some MgrError.noKernelRunning }
    ∧ (kill s).err = some MgrError.noneTypeAttr
    ∧ (∀ v, Effect.sent v ∉ (kill s).effects) := by
  refine ⟨by simp [signal, h], by simp [interrupt, signal, h], ?_, ?_⟩
  · simp [kill, h]
  · intro v
    simp only [kill, h]
    split <;> simp

/-- Witness for the absent-kernel theorem at a concrete handle-less
coordinator. -/
theorem absent_kernel_operation_errors_witness :
    signal (fun _ => none) (fun _ => none)
        { kernel := false, lifecycle_manager := some LMKind.remote,
          sigint_value := none, restarting := false, activity_stream := false } 9 =
      { st := { kernel := false, lifecycle_manager := some LMKind.remote,
                sigint_value := none, restarting := false, activity_stream := false }
        effects := [], err := some MgrError.noKernelRunning }
    ∧ (kill { kernel := false, lifecycle_manager := some LMKind.remote,
              sigint_value := none, restarting := false,
              activity_stream := false }).err = some MgrError.noneTypeAttr := by
  have h := absent_kernel_operation_errors (fun _ => none) (fun _ => none)
    { kernel := false, lifecycle_manager := some LMKind.remote,
      sigint_value := none, restarting := false, activity_stream := false } 9 rfl
  exact ⟨h.1, h.2.2.1⟩

/-! ## Claim theorems: alternate interrupt-signal resolution -/

/-- C7: the alternate-interrupt-signal name is consulted only on the first
SIGINT request of the kernel's life.  Once a value is cached, every SIGINT
request (hence every `interrupt()`, which is `signal SIGINT`) sends the
cached value, changes nothing, and is independent of the kernelspec
environment and of the name-resolution function.  On the first SIGINT, a
present non-empty name that resolves is cached and sent; one that fails to
resolve produces exactly one warning and caches the default SIGINT.
Non-SIGINT signal numbers pass through to `send_signal` unremapped. -/
theorem alt_sigint_resolution_caching
    (specEnv specEnv2 : EnvMap) (resolve resolve2 : String → Option Int)
    (s : MgrState) (v w : Int) (alt : String) (signum : Int) :
    (s.kernel = true → s.sigint_value = some v →
      signal specEnv resolve s SIGINT =
        { st := s, effects := [Effect.sent v], err := none }
      ∧ signal specEnv resolve s SIGINT = signal specEnv2 resolve2 s SIGINT)
    ∧ (s.kernel = true → s.sigint_value = none →
        specEnv "EG_ALTERNATE_SIGINT" = some alt → alt ≠ "" →
        resolve alt = some w →
        signal specEnv resolve s SIGINT =
          { st := { s with sigint_value := some w }
            effects := [Effect.debuggedAltSigint, Effect.sent w]
            err := none })
    ∧ (s.kernel = true → s.sigint_value = none →
        specEnv "EG_ALTERNATE_SIGINT" = some alt → alt ≠ "" →
        resolve alt = none →
        signal specEnv resolve s SIGINT =
          { st := { s with sigint_value := some SIGINT }
            effects := [Effect.warnedBadAltSigint, Effect.sent SIGINT]
            err := none })
    ∧ (s.kernel = true → signum ≠ SIGINT →
        signal specEnv resolve s signum =
          { st := s, effects := [Effect.sent signum], err := none })
    ∧ interrupt specEnv resolve s = signal specEnv resolve s SIGINT := by
  refine ⟨?_, ?_, ?_, ?_, rfl⟩
  · intro hk hv
    exact ⟨by simp [signal, hk, hv], by simp [signal, hk, hv]⟩
  · intro hk hv halt hne hres
    simp [signal, hk, hv, halt, hne, hres]
  · intro hk hv halt hne hres
    simp [signal, hk, hv, halt, hne, hres]
  · intro hk hsig
    simp [signal, hk, hsig]

/-- Witness for the alternate-signal theorem: a cached value is reused
independently of the environment, a resolvable name is cached on first
interrupt, an unresolvable one warns once and caches the default, and a
non-SIGINT number passes through. -/
theorem alt_sigint_resolution_caching_witness :
    signal (fun k => if k = "EG_ALTERNATE_SIGINT" then some "SIGUSR2" else none)
        (fun n => if n = "SIGUSR2" then some 12 else none)
        { kernel := true, lifecycle_manager := some LMKind.remote,
          sigint_value := some 12, restarting := false,
          activity_stream := false } SIGINT =
      { st := { kernel := true, lifecycle_manager := some LMKind.remote,
                sigint_value := some 12, restarting := false,
                activity_stream := false }
        effects := [Effect.sent 12], err := none }
    ∧ signal (fun k => if k = "EG_ALTERNATE_SIGINT" then some "SIGUSR2" else none)
        (fun n => if n = "SIGUSR2" then some 12 else none)
        { kernel := true, lifecycle_manager := some LMKind.remote,
          sigint_value := none, restarting := false,
          activity_stream := false } SIGINT =
      { st := { kernel := true, lifecycle_manager := some LMKind.remote,
                sigint_value := some 12, restarting := false,
                activity_stream := false }
        effects := [Effect.debuggedAltSigint, Effect.sent 12], err := none }
    ∧ signal (fun k => if k = "EG_ALTERNATE_SIGINT" then some "SIGBOGUS" else none)
        (fun _ => none)
        { kernel := true, lifecycle_manager := some LMKind.remote,
          sigint_value := none, restarting := false,
          activity_stream := false } SIGINT =
      { st := { kernel := true, lifecycle_manager := some LMKind.remote,
                sigint_value := some SIGINT, restarting := false,
                activity_stream := false }
        effects := [Effect.warnedBadAltSigint, Effect.sent SIGINT], err := none }
    ∧ signal (fun _ => none) (fun _ => none)
        { kernel := true, lifecycle_manager := some LMKind.remote,
          sigint_value := none, restarting := false,
          activity_stream := false } 15 =
      { st := { kernel := true, lifecycle_manager := some LMKind.remote,
                sigint_value := none, restarting := false,
                activity_stream := false }
        effects := [Effect.sent 15], err := none } := by
  refine ⟨?_, ?_, ?_, ?_⟩
  · exact ((alt_sigint_resolution_caching
      (fun k => if k = "EG_ALTERNATE_SIGINT" then some "SIGUSR2" else none)
      (fun _ => none)
      (fun n => if n = "SIGUSR2" then some 12 else none) (fun _ => none)
      { kernel := true, lifecycle_manager := some LMKind.remote,
        sigint_value := some 12, restarting := false, activity_stream := false }
      12 12 "SIGUSR2" 0).1 rfl rfl).1
  · exact (alt_sigint_resolution_caching
      (fun k => if k = "EG_ALTERNATE_SIGINT" then some "SIGUSR2" else none)
      (fun _ => none)
      (fun n => if n = "SIGUSR2" then some 12 else none) (fun _ => none)
      { kernel := true, lifecycle_manager := some LMKind.remote,
        sigint_value := none, restarting := false, activity_stream := false }
      0 12 "SIGUSR2" 0).2.1 rfl rfl rfl (by decide) rfl
  · exact (alt_sigint_resolution_caching
      (fun k => if k = "EG_ALTERNATE_SIGINT" then some "SIGBOGUS" else none)
      (fun _ => none) (fun _ => none) (fun _ => none)
      { kernel := true, lifecycle_manager := some LMKind.remote,
        sigint_value := none, restarting := false, activity_stream := false }
      0 0 "SIGBOGUS" 0).2.2.1 rfl rfl rfl (by decide) rfl
  · exact (alt_sigint_resolution_caching
      (fun _ => none) (fun _ => none) (fun _ => none) (fun _ => none)
      { kernel := true, lifecycle_manager := some LMKind.remote,
        sigint_value := none, restarting := false, activity_stream := false }
      0 0 "" 15).2.2.2.1 rfl (by decide)

/-! ## Claim theorems: environment merging -/

/-- C2: in the environment merged at coordinator construction, with the
allow-list W given as the union of the two configured whitelists, only
keys passing the filter (prefix `KERNEL_` or membership in W) survive
from the legacy map O1 and the call-time map O2 (a key failing the filter
keeps its kernelspec value); a key overridden by neither map keeps its
kernelspec value; and on a surviving key the call-time map wins over the
legacy map, which wins over the kernelspec default. -/
theorem env_merge_filter_precedence
    (wl1 wl2 : List String) (E O1 O2 : EnvMap) (k : String) :
    (overrideFilter wl1 wl2 k = false → merged_env wl1 wl2 E O1 O2 k = E k)
    ∧ (O1 k = none → O2 k = none → merged_env wl1 wl2 E O1 O2 k = E k)
    ∧ (∀ v, overrideFilter wl1 wl2 k = true → O2 k = some v →
        merged_env wl1 wl2 E O1 O2 k = some v)
    ∧ (∀ v, overrideFilter wl1 wl2 k = true → O2 k = none → O1 k = some v →
        merged_env wl1 wl2 E O1 O2 k = some v) := by
  refine ⟨?_, ?_, ?_, ?_⟩
  · intro hf
    simp [merged_env, capture_user_overrides, dictUpdate, dictFilter, hf]
  · intro h1 h2
    simp [merged_env, capture_user_overrides, dictUpdate, dictFilter, h1, h2]
  · intro v hf h2
    simp [merged_env, capture_user_overrides, dictUpdate, dictFilter, hf, h2]
  · intro v hf h2 h1
    simp [merged_env, capture_user_overrides, dictUpdate, dictFilter, hf, h1, h2]

/-- Witness for the environment-merge theorem: with kernelspec defaults
`{LANG: en, KERNEL_ID: default-id}`, legacy overrides
`{KERNEL_ID: legacy-id, PATH: p, EXTRA: x}`, call-time overrides
`{KERNEL_ID: call-id}` and whitelists `["EXTRA"]` and `[]`: the
non-whitelisted `PATH` keeps no override, `LANG` is preserved, the
call-time `KERNEL_ID` wins, and the whitelisted `EXTRA` survives from the
legacy map. -/
theorem env_merge_filter_precedence_witness :
    merged_env ["EXTRA"] []
        (fun k => if k = "LANG" then some "en"
                  else if k = "KERNEL_ID" then some "default-id" else none)
        (fun k => if k = "KERNEL_ID" then some "legacy-id"
                  else if k = "PATH" then some "p"
                  else if k = "EXTRA" then some "x" else none)
        (fun k => if k = "KERNEL_ID" then some "call-id" else none)
        "PATH" = none
    ∧ merged_env ["EXTRA"] []
        (fun k => if k = "LANG" then some "en"
                  else if k = "KERNEL_ID" then some "default-id" else none)
        (fun k => if k = "KERNEL_ID" then some "legacy-id"
                  else if k = "PATH" then some "p"
                  else if k = "EXTRA" then some "x" else none)
        (fun k => if k = "KERNEL_ID" then some "call-id" else none)
        "LANG" = some "en"
    ∧ merged_env ["EXTRA"] []
        (fun k => if k = "LANG" then some "en"
                  else if k = "KERNEL_ID" then some "default-id" else none)
        (fun k => if k = "KERNEL_ID" then some "legacy-id"
                  else if k = "PATH" then some "p"
                  else if k = "EXTRA" then some "x" else none)
        (fun k => if k = "KERNEL_ID" then some "call-id" else none)
        "KERNEL_ID" = some "call-id"
    ∧ merged_env ["EXTRA"] []
        (fun k => if k = "LANG" then some "en"
                  else if k = "KERNEL_ID" then some "default-id" else none)
        (fun k => if k = "KERNEL_ID" then some "legacy-id"
                  else if k = "PATH" then some "p"
                  else if k = "EXTRA" then some "x" else none)
        (fun k => if k = "KERNEL_ID" then some "call-id" else none)
        "EXTRA" = some "x" := by
  refine ⟨?_, ?_, ?_, ?_⟩
  · have h := (env_merge_filter_precedence ["EXTRA"] []
      (fun k => if k = "LANG" then some "en"
                else if k = "KERNEL_ID" then some "default-id" else none)
      (fun k => if k = "KERNEL_ID" then some "legacy-id"
                else if k = "PATH" then some "p"
                else if k = "EXTRA" then some "x" else none)
      (fun k => if k = "KERNEL_ID" then some "call-id" else none) "PATH").1
      (by decide)
    simpa using h
  · have h := (env_merge_filter_precedence ["EXTRA"] []
      (fun k => if k = "LANG" then some "en"
                else if k = "KERNEL_ID" then some "default-id" else none)
      (fun k => if k = "KERNEL_ID" then some "legacy-id"
                else if k = "PATH" then some "p"
                else if k = "EXTRA" then some "x" else none)
      (fun k => if k = "KERNEL_ID" then some "call-id" else none) "LANG").2.1
      rfl rfl
    simpa using h
  · exact (env_merge_filter_precedence ["EXTRA"] []
      (fun k => if k = "LANG" then some "en"
                else if k = "KERNEL_ID" then some "default-id" else none)
      (fun k => if k = "KERNEL_ID" then some "legacy-id"
                else if k = "PATH" then some "p"
                else if k = "EXTRA" then some "x" else none)
      (fun k => if k = "KERNEL_ID" then some "call-id" else none)
      "KERNEL_ID").2.2.1 "call-id" (by decide) rfl
  · exact (env_merge_filter_precedence ["EXTRA"] []
      (fun k => if k = "LANG" then some "en"
                else if k = "KERNEL_ID" then some "default-id" else none)
      (fun k => if k = "KERNEL_ID" then some "legacy-id"
                else if k = "PATH" then some "p"
                else if k = "EXTRA" then some "x" else none)
      (fun k => if k = "KERNEL_ID" then some "call-id" else none)
      "EXTRA").2.2.2 "x" (by decide) rfl rfl

/-! ## Claim theorems: command templating -/

theorem substAux_ident_run (ns : EnvMap) (ident : List Char) :
    ∀ (acc rest : List Char), (∀ c ∈ ident, isIdentChar c = true) →
      acc.reverse ++ ident ≠ [] →
      substAux ns (ident ++ '}' :: rest) (some acc) =
        replPlaceholder ns (acc.reverse ++ ident) ++ substAux ns rest none := by
  induction ident with
  | nil =>
      intro acc rest _ hne
      have hacc : acc ≠ [] := by
        intro h
        apply hne
        simp [h]
      show substAux ns ('}' :: rest) (some acc) = _
      simp only [substAux]
      rw [if_neg (by decide), if_pos ⟨trivial, hacc⟩]
      simp
  | cons c cs ih =>
      intro acc rest hid hne
      have hc : isIdentChar c = true := hid c (List.mem_cons_self c cs)
      have hcs : ∀ x ∈ cs, isIdentChar x = true :=
        fun x hx => hid x (List.mem_cons_of_mem c hx)
      show substAux ns (c :: (cs ++ '}' :: rest)) (some acc) = _
      simp only [substAux]
      rw [if_pos hc, ih (c :: acc) rest hcs (by simp)]
      congr 2
      simp

/-- The substitution namespace of the specification's templating example:
`kernel_id` bound to `abc` and `response_address` to `1.2.3.4:9999`. -/
def nsExample : EnvMap := fun k =>
  if k = "kernel_id" then some "abc"
  else if k = "response_address" then some "1.2.3.4:9999" else none

/-- C8: command formatting replaces each `{identifier}` occurrence with
the namespace value for that identifier; an identifier absent from the
namespace is left verbatim without raising; and templating
`["cat", "{kernel_id}", "{response_address}"]` against the example
namespace yields `["cat", "abc", "1.2.3.4:9999"]`.  The embedding is
pure, so the input template is left unmutated by construction (the source
likewise builds a fresh list with `argv + extra_arguments` and never
writes to the kernelspec argv). -/
theorem format_cmd_placeholder_semantics
    (ns : EnvMap) (ident rest : List Char) (v : String) :
    ((∀ c ∈ ident, isIdentChar c = true) → ident ≠ [] →
      ns (String.mk ident) = some v →
      substAux ns ('{' :: (ident ++ '}' :: rest)) none =
        v.data ++ substAux ns rest none)
    ∧ ((∀ c ∈ ident, isIdentChar c = true) → ident ≠ [] →
      ns (String.mk ident) = none →
      substAux ns ('{' :: (ident ++ '}' :: rest)) none =
        '{' :: (ident ++ '}' :: substAux ns rest none))
    ∧ format_kernel_cmd [] "/opt/python" nsExample
        ["cat", "{kernel_id}", "{response_address}"] [] =
      ["cat", "abc", "1.2.3.4:9999"] := by
  refine ⟨?_, ?_, ?_⟩
  · intro hid hne hv
    simp only [substAux]
    rw [if_pos trivial, substAux_ident_run ns ident [] rest hid (by simpa using hne)]
    simp [replPlaceholder, hv]
  · intro hid hne hv
    simp only [substAux]
    rw [if_pos trivial, substAux_ident_run ns ident [] rest hid (by simpa using hne)]
    simp [replPlaceholder, hv]
  · rfl

/-- Witness for the templating theorem: the identifier `kernel_id` bound
in the example namespace is substituted, and the unbound identifier
`missing` passes through verbatim. -/
theorem format_cmd_placeholder_semantics_witness :
    substAux nsExample ('{' :: ("kernel_id".data ++ '}' :: [])) none =
      "abc".data ++ substAux nsExample [] none
    ∧ substAux nsExample ('{' :: ("missing".data ++ '}' :: [])) none =
      '{' :: ("missing".data ++ '}' :: substAux nsExample [] none) := by
  constructor
  · exact (format_cmd_placeholder_semantics nsExample "kernel_id".data [] "abc").1
      (by decide) (by decide) rfl
  · exact (format_cmd_placeholder_semantics nsExample "missing".data [] "").2.1
      (by decide) (by decide) rfl

end RKP
